import Mathlib

/-
Verification of the Quiz Buzzer firmware (nRF52840 / Zephyr) against its
natural-language specification.  The C modules under src/buzzer-firmware/src
are shallowly embedded: pure arithmetic (battery curve, ADC conversion)
becomes Lean functions on `Int`; stateful handlers become functions from an
explicit state record (plus environment inputs such as the current uptime or
the ADC result) to a new state together with a list of observable effects
(peripheral reads, BLE publications, timer operations, callback invocations).
-/

namespace Buzzer

/-! ## Constants from config.h and main.c -/

/-- config.h: `#define BUTTON_DEBOUNCE_MS 50`. -/
def BUTTON_DEBOUNCE_MS : Nat := 50

/-- config.h: `#define BATTERY_FULL_MV 4200`. -/
def BATTERY_FULL_MV : Int := 4200

/-- config.h: `#define BATTERY_LOW_MV 3400`. -/
def BATTERY_LOW_MV : Int := 3400

/-- config.h: `#define BATTERY_EMPTY_MV 3000`. -/
def BATTERY_EMPTY_MV : Int := 3000

/-- config.h: `#define BATTERY_DIVIDER_RATIO 2`. -/
def BATTERY_DIVIDER_RATIO : Int := 2

/-- config.h: `#define BATTERY_UPDATE_INTERVAL_MS 300000`. -/
def BATTERY_UPDATE_INTERVAL_MS : Int := 300000

/-- main.c: `#define LED_BLINK_DISCONNECTED_MS 2000`. -/
def LED_BLINK_DISCONNECTED_MS : Nat := 2000

/-- main.c: `#define LED_BLINK_CONNECTED_MS 5000`. -/
def LED_BLINK_CONNECTED_MS : Nat := 5000

/-! ## battery.c: millivolts → percent curve

The four guarded segment formulas of `millivolts_to_percent` are named
individually so that continuity at the segment boundaries can be stated about
the formulas themselves, and the dispatching function is assembled from them
exactly as the C source dispatches.  All divisions reached under the guards
have non-negative numerator and positive denominator, so C truncating
division agrees with Lean `Int` division there. -/

/-- battery.c segment `4.0V - 4.2V: 80% - 100%`:
`80 + ((mv - 4000) * 20) / (BATTERY_FULL_MV - 4000)`. -/
def seg_80_100 (mv : Int) : Int :=
  80 + ((mv - 4000) * 20) / (BATTERY_FULL_MV - 4000)

/-- battery.c segment `3.7V - 4.0V: 50% - 80%`:
`50 + ((mv - 3700) * 30) / 300`. -/
def seg_50_80 (mv : Int) : Int :=
  50 + ((mv - 3700) * 30) / 300

/-- battery.c segment `3.4V - 3.7V: 20% - 50%`:
`20 + ((mv - 3400) * 30) / 300`. -/
def seg_20_50 (mv : Int) : Int :=
  20 + ((mv - 3400) * 30) / 300

/-- battery.c segment `3.0V - 3.4V: 0% - 20%`:
`((mv - BATTERY_EMPTY_MV) * 20) / (3400 - BATTERY_EMPTY_MV)`. -/
def seg_0_20 (mv : Int) : Int :=
  ((mv - BATTERY_EMPTY_MV) * 20) / (3400 - BATTERY_EMPTY_MV)

/-- battery.c `millivolts_to_percent`: clamps to 100 above `BATTERY_FULL_MV`
and to 0 below `BATTERY_EMPTY_MV`, otherwise dispatches to the four
piecewise-linear segments.  The C function returns `uint8_t`; every branch
yields a value in `[0, 100]`, so the narrowing cast is the identity and the
result is modelled as `Int`. -/
def millivolts_to_percent (mv : Int) : Int :=
  if mv ≥ BATTERY_FULL_MV then 100
  else if mv ≤ BATTERY_EMPTY_MV then 0
  else if mv ≥ 4000 then seg_80_100 mv
  else if mv ≥ 3700 then seg_50_80 mv
  else if mv ≥ 3400 then seg_20_50 mv
  else seg_0_20 mv

/-- battery.c `adc_to_millivolts`: clamps negative readings to 0, converts a
12-bit sample to millivolts at the ADC pin (`adc_value * 3600 / 4096`), then
scales by the voltage-divider ratio. -/
def adc_to_millivolts (adc_value : Int) : Int :=
  let a := if adc_value < 0 then 0 else adc_value
  let mv_at_adc := (a * 3600) / 4096
  mv_at_adc * BATTERY_DIVIDER_RATIO

/-! ### Shape of `millivolts_to_percent`: value on each region of the guard chain -/

theorem mvp_low {mv : Int} (h : mv ≤ 3000) : millivolts_to_percent mv = 0 := by
  unfold millivolts_to_percent BATTERY_FULL_MV BATTERY_EMPTY_MV
  split_ifs <;> omega

theorem mvp_high {mv : Int} (h : 4200 ≤ mv) : millivolts_to_percent mv = 100 := by
  unfold millivolts_to_percent BATTERY_FULL_MV
  split_ifs <;> omega

theorem mvp_r3 {mv : Int} (h1 : 3000 < mv) (h2 : mv < 3400) :
    millivolts_to_percent mv = seg_0_20 mv := by
  unfold millivolts_to_percent BATTERY_FULL_MV BATTERY_EMPTY_MV
  split_ifs <;> first | rfl | omega

theorem mvp_r2 {mv : Int} (h1 : 3400 ≤ mv) (h2 : mv < 3700) :
    millivolts_to_percent mv = seg_20_50 mv := by
  unfold millivolts_to_percent BATTERY_FULL_MV BATTERY_EMPTY_MV
  split_ifs <;> first | rfl | omega

theorem mvp_r1 {mv : Int} (h1 : 3700 ≤ mv) (h2 : mv < 4000) :
    millivolts_to_percent mv = seg_50_80 mv := by
  unfold millivolts_to_percent BATTERY_FULL_MV BATTERY_EMPTY_MV
  split_ifs <;> first | rfl | omega

theorem mvp_r0 {mv : Int} (h1 : 4000 ≤ mv) (h2 : mv < 4200) :
    millivolts_to_percent mv = seg_80_100 mv := by
  unfold millivolts_to_percent BATTERY_FULL_MV BATTERY_EMPTY_MV
  split_ifs <;> first | rfl | omega

/-! ### Each segment formula is monotone and bounded on its region -/

theorem seg_0_20_mono {a b : Int} (hab : a ≤ b) : seg_0_20 a ≤ seg_0_20 b := by
  unfold seg_0_20 BATTERY_EMPTY_MV
  exact Int.ediv_le_ediv (by norm_num)
    (mul_le_mul_of_nonneg_right (by omega) (by norm_num))

theorem seg_20_50_mono {a b : Int} (hab : a ≤ b) : seg_20_50 a ≤ seg_20_50 b := by
  unfold seg_20_50
  exact add_le_add_left (Int.ediv_le_ediv (by norm_num)
    (mul_le_mul_of_nonneg_right (by omega) (by norm_num))) 20

theorem seg_50_80_mono {a b : Int} (hab : a ≤ b) : seg_50_80 a ≤ seg_50_80 b := by
  unfold seg_50_80
  exact add_le_add_left (Int.ediv_le_ediv (by norm_num)
    (mul_le_mul_of_nonneg_right (by omega) (by norm_num))) 50

theorem seg_80_100_mono {a b : Int} (hab : a ≤ b) : seg_80_100 a ≤ seg_80_100 b := by
  unfold seg_80_100 BATTERY_FULL_MV
  exact add_le_add_left (Int.ediv_le_ediv (by norm_num)
    (mul_le_mul_of_nonneg_right (by omega) (by norm_num))) 80

theorem seg_0_20_bounds {mv : Int} (h1 : 3000 < mv) (h2 : mv < 3400) :
    0 ≤ seg_0_20 mv ∧ seg_0_20 mv ≤ 19 := by
  constructor
  · unfold seg_0_20 BATTERY_EMPTY_MV
    exact Int.ediv_nonneg (by nlinarith) (by norm_num)
  · have hstep := seg_0_20_mono (show mv ≤ 3399 by omega)
    have hval : seg_0_20 3399 = 19 := by decide
    omega

theorem seg_20_50_bounds {mv : Int} (h1 : 3400 ≤ mv) (h2 : mv < 3700) :
    20 ≤ seg_20_50 mv ∧ seg_20_50 mv ≤ 49 := by
  constructor
  · have hstep := seg_20_50_mono (show (3400 : Int) ≤ mv from h1)
    have hval : seg_20_50 3400 = 20 := by decide
    omega
  · have hstep := seg_20_50_mono (show mv ≤ 3699 by omega)
    have hval : seg_20_50 3699 = 49 := by decide
    omega

theorem seg_50_80_bounds {mv : Int} (h1 : 3700 ≤ mv) (h2 : mv < 4000) :
    50 ≤ seg_50_80 mv ∧ seg_50_80 mv ≤ 79 := by
  constructor
  · have hstep := seg_50_80_mono (show (3700 : Int) ≤ mv from h1)
    have hval : seg_50_80 3700 = 50 := by decide
    omega
  · have hstep := seg_50_80_mono (show mv ≤ 3999 by omega)
    have hval : seg_50_80 3999 = 79 := by decide
    omega

theorem seg_80_100_bounds {mv : Int} (h1 : 4000 ≤ mv) (h2 : mv < 4200) :
    80 ≤ seg_80_100 mv ∧ seg_80_100 mv ≤ 99 := by
  constructor
  · have hstep := seg_80_100_mono (show (4000 : Int) ≤ mv from h1)
    have hval : seg_80_100 4000 = 80 := by decide
    omega
  · have hstep := seg_80_100_mono (show mv ≤ 4199 by omega)
    have hval : seg_80_100 4199 = 99 := by decide
    omega

/-! ### Global bounds on `millivolts_to_percent` -/

theorem mvp_nonneg (mv : Int) : 0 ≤ millivolts_to_percent mv := by
  rcases le_or_lt mv 3000 with h | h
  · rw [mvp_low h]
  rcases le_or_lt 4200 mv with h0 | h0
  · rw [mvp_high h0]; norm_num
  rcases le_or_lt 4000 mv with h1 | h1
  · rw [mvp_r0 h1 h0]; have := seg_80_100_bounds h1 h0; omega
  rcases le_or_lt 3700 mv with h2 | h2
  · rw [mvp_r1 h2 h1]; have := seg_50_80_bounds h2 h1; omega
  rcases le_or_lt 3400 mv with h3 | h3
  · rw [mvp_r2 h3 h2]; have := seg_20_50_bounds h3 h2; omega
  · rw [mvp_r3 h h3]; have := seg_0_20_bounds h h3; omega

theorem mvp_le_100 (mv : Int) : millivolts_to_percent mv ≤ 100 := by
  rcases le_or_lt mv 3000 with h | h
  · rw [mvp_low h]; norm_num
  rcases le_or_lt 4200 mv with h0 | h0
  · rw [mvp_high h0]
  rcases le_or_lt 4000 mv with h1 | h1
  · rw [mvp_r0 h1 h0]; have := seg_80_100_bounds h1 h0; omega
  rcases le_or_lt 3700 mv with h2 | h2
  · rw [mvp_r1 h2 h1]; have := seg_50_80_bounds h2 h1; omega
  rcases le_or_lt 3400 mv with h3 | h3
  · rw [mvp_r2 h3 h2]; have := seg_20_50_bounds h3 h2; omega
  · rw [mvp_r3 h h3]; have := seg_0_20_bounds h h3; omega

theorem mvp_lb_3400 {mv : Int} (h : 3400 ≤ mv) : 20 ≤ millivolts_to_percent mv := by
  rcases le_or_lt 4200 mv with h0 | h0
  · rw [mvp_high h0]; norm_num
  rcases le_or_lt 4000 mv with h1 | h1
  · rw [mvp_r0 h1 h0]; have := seg_80_100_bounds h1 h0; omega
  rcases le_or_lt 3700 mv with h2 | h2
  · rw [mvp_r1 h2 h1]; have := seg_50_80_bounds h2 h1; omega
  · rw [mvp_r2 h h2]; have := seg_20_50_bounds h h2; omega

theorem mvp_lb_3700 {mv : Int} (h : 3700 ≤ mv) : 50 ≤ millivolts_to_percent mv := by
  rcases le_or_lt 4200 mv with h0 | h0
  · rw [mvp_high h0]; norm_num
  rcases le_or_lt 4000 mv with h1 | h1
  · rw [mvp_r0 h1 h0]; have := seg_80_100_bounds h1 h0; omega
  · rw [mvp_r1 h h1]; have := seg_50_80_bounds h h1; omega

theorem mvp_lb_4000 {mv : Int} (h : 4000 ≤ mv) : 80 ≤ millivolts_to_percent mv := by
  rcases le_or_lt 4200 mv with h0 | h0
  · rw [mvp_high h0]; norm_num
  · rw [mvp_r0 h h0]; have := seg_80_100_bounds h h0; omega

theorem mvp_ub_3400 {mv : Int} (h : mv < 3400) : millivolts_to_percent mv ≤ 19 := by
  rcases le_or_lt mv 3000 with h3 | h3
  · rw [mvp_low h3]; norm_num
  · rw [mvp_r3 h3 h]; have := seg_0_20_bounds h3 h; omega

theorem mvp_ub_3700 {mv : Int} (h : mv < 3700) : millivolts_to_percent mv ≤ 49 := by
  rcases le_or_lt 3400 mv with h2 | h2
  · rw [mvp_r2 h2 h]; have := seg_20_50_bounds h2 h; omega
  · have := mvp_ub_3400 h2; omega

theorem mvp_ub_4000 {mv : Int} (h : mv < 4000) : millivolts_to_percent mv ≤ 79 := by
  rcases le_or_lt 3700 mv with h1 | h1
  · rw [mvp_r1 h1 h]; have := seg_50_80_bounds h1 h; omega
  · have := mvp_ub_3700 h1; omega

/-- The battery curve is monotonically non-decreasing over all of `Int`. -/
theorem millivolts_to_percent_mono {a b : Int} (hab : a ≤ b) :
    millivolts_to_percent a ≤ millivolts_to_percent b := by
  rcases le_or_lt 4200 b with hb | hb
  · rw [mvp_high hb]; exact mvp_le_100 a
  rcases le_or_lt 4000 b with hb0 | hb0
  · rcases le_or_lt 4000 a with ha0 | ha0
    · rw [mvp_r0 ha0 (by omega), mvp_r0 hb0 hb]; exact seg_80_100_mono hab
    · have h1 := mvp_ub_4000 ha0; have h2 := mvp_lb_4000 hb0; omega
  rcases le_or_lt 3700 b with hb1 | hb1
  · rcases le_or_lt 3700 a with ha1 | ha1
    · rw [mvp_r1 ha1 (by omega), mvp_r1 hb1 hb0]; exact seg_50_80_mono hab
    · have h1 := mvp_ub_3700 ha1; have h2 := mvp_lb_3700 hb1; omega
  rcases le_or_lt 3400 b with hb2 | hb2
  · rcases le_or_lt 3400 a with ha2 | ha2
    · rw [mvp_r2 ha2 (by omega), mvp_r2 hb2 hb1]; exact seg_20_50_mono hab
    · have h1 := mvp_ub_3400 ha2; have h2 := mvp_lb_3400 hb2; omega
  rcases le_or_lt b 3000 with hb3 | hb3
  · rw [mvp_low hb3, mvp_low (show a ≤ 3000 by omega)]
  · rcases le_or_lt a 3000 with ha3 | ha3
    · rw [mvp_low ha3]; exact mvp_nonneg b
    · rw [mvp_r3 ha3 (by omega), mvp_r3 hb3 hb2]; exact seg_0_20_mono hab

/-! ## button.c: debounced button handling

State of the button module (`last_button_state`, `debounce_in_progress`, plus
whether `user_callback` is non-NULL).  The hardware timer and the user
callback are collaborators, so starting the debounce timer and invoking the
callback are recorded as effects; the raw GPIO level read inside the expiry
handler is an environment input. -/

structure ButtonState where
  last_button_state : Bool
  debounce_in_progress : Bool
  user_callback_registered : Bool
  deriving DecidableEq, Repr

inductive ButtonEffect where
  /-- `k_timer_start(&debounce_timer, K_MSEC(duration), K_NO_WAIT)` -/
  | timerStart (duration : Nat)
  /-- `user_callback(pressed)` -/
  | callback (pressed : Bool)
  deriving DecidableEq, Repr

/-- button.c `debounce_timer_handler`: clears `debounce_in_progress`, reads
the raw line level (`raw_value`, environment input), derives
`current_state = (raw_value == 0)` (active low), and only if it differs from
`last_button_state` commits it and invokes the user callback (when one is
registered). -/
def debounce_timer_handler (raw_value : Int) (s : ButtonState) :
    ButtonState × List ButtonEffect :=
  let s1 := { s with debounce_in_progress := false }
  let current_state : Bool := raw_value == 0
  if current_state ≠ s1.last_button_state then
    ({ s1 with last_button_state := current_state },
     if s1.user_callback_registered then [ButtonEffect.callback current_state] else [])
  else
    (s1, [])

/-- button.c `button_pressed_handler` (GPIO edge interrupt): if no debounce
window is in progress, set the flag and start the one-shot debounce timer
with `BUTTON_DEBOUNCE_MS`; otherwise do nothing. -/
def button_pressed_handler (s : ButtonState) : ButtonState × List ButtonEffect :=
  if s.debounce_in_progress = false then
    ({ s with debounce_in_progress := true },
     [ButtonEffect.timerStart BUTTON_DEBOUNCE_MS])
  else
    (s, [])

/-! ## battery.c: `battery_update`

State of the battery module and its observable effects.  `k_uptime_get()` and
the result of `adc_read` are environment inputs; `adc_read` itself (the
peripheral access), `bt_bas_set_battery_level` (the BLE publication) and the
failure/low-battery `printk` reports are effects. -/

structure BatteryState where
  battery_level : Int
  last_update_time : Int
  adc_initialized : Bool
  deriving DecidableEq, Repr

inductive BatteryEffect where
  /-- `adc_read(adc_dev, &sequence)` — one peripheral read (attempted). -/
  | adcRead
  /-- `bt_bas_set_battery_level(level)` — publication to the BLE Battery
  Service transport collaborator. -/
  | publish (level : Int)
  /-- `printk("ADC read failed (err %d)")` — the reported read failure. -/
  | reportReadFailure (err : Int)
  /-- `printk("WARNING: Low battery!...")` -/
  | reportLowBattery
  /-- `printk("CRITICAL: Battery empty!...")` -/
  | reportCritical
  deriving DecidableEq, Repr

/-- battery.c `battery_update`: rate-limits via `last_update_time` (with `0`
doubling as the never-sampled sentinel), falls back to republishing the
current level when the ADC is unavailable, otherwise reads the ADC
(`adc_result` is the environment's outcome: an error code or a raw sample),
converts to millivolts and percent, and only on a changed percent commits it,
publishes it, and emits the low-battery warnings. -/
def battery_update (now : Int) (adc_result : Except Int Int) (s : BatteryState) :
    BatteryState × List BatteryEffect :=
  if now - s.last_update_time < BATTERY_UPDATE_INTERVAL_MS ∧ s.last_update_time ≠ 0 then
    (s, [])
  else
    let s1 := { s with last_update_time := now }
    if s1.adc_initialized = false then
      (s1, [BatteryEffect.publish s1.battery_level])
    else
      match adc_result with
      | Except.error err => (s1, [BatteryEffect.adcRead, BatteryEffect.reportReadFailure err])
      | Except.ok adc_value =>
        let battery_mv := adc_to_millivolts adc_value
        let new_level := millivolts_to_percent battery_mv
        if new_level ≠ s1.battery_level then
          ({ s1 with battery_level := new_level },
           [BatteryEffect.adcRead, BatteryEffect.publish new_level] ++
           (if battery_mv ≤ BATTERY_LOW_MV ∧ battery_mv > BATTERY_EMPTY_MV then
              [BatteryEffect.reportLowBattery]
            else if battery_mv ≤ BATTERY_EMPTY_MV then
              [BatteryEffect.reportCritical]
            else []))
        else
          (s1, [BatteryEffect.adcRead])

/-- Number of peripheral reads recorded in an effect trace. -/
def countReads : List BatteryEffect → Nat
  | [] => 0
  | BatteryEffect.adcRead :: rest => countReads rest + 1
  | _ :: rest => countReads rest

/-- Whether an effect trace contains a BLE publication. -/
def hasPublish (effs : List BatteryEffect) : Prop :=
  ∃ l, BatteryEffect.publish l ∈ effs

/-! ## buzzer_service.c: GATT characteristics

State of the service module (`button_state`, `led_rgb`,
`button_state_notify_enabled`).  `led_set_rgb` (the LED output collaborator)
and `bt_gatt_notify` are effects; the return code of `bt_gatt_notify` is an
environment input. -/

structure ServiceState where
  button_state : Int
  led_rgb : List Int
  button_state_notify_enabled : Bool
  deriving DecidableEq, Repr

inductive ServiceEffect where
  /-- `led_set_rgb(r, g, b)` — the underlying indicator output update. -/
  | ledSetRgb (r g b : Int)
  /-- `bt_gatt_notify(...)` with the given characteristic value. -/
  | notifySent (value : Int)
  deriving DecidableEq, Repr

/-- Zephyr `BT_ATT_ERR_INVALID_OFFSET` (0x07). -/
def BT_ATT_ERR_INVALID_OFFSET : Int := 0x07

/-- Zephyr `BT_ATT_ERR_INVALID_ATTRIBUTE_LEN` (0x0D). -/
def BT_ATT_ERR_INVALID_ATTRIBUTE_LEN : Int := 0x0D

/-- Zephyr `BT_GATT_ERR(att_err)` = `-att_err`, the negative ATT error code
returned from a GATT attribute callback. -/
def BT_GATT_ERR (att_err : Int) : Int := -att_err

/-- errno `EACCES` (13). -/
def EACCES : Int := 13

/-- buzzer_service.c `write_led_control`: rejects a non-zero offset with
`BT_GATT_ERR(BT_ATT_ERR_INVALID_OFFSET)` and a length other than 3 with
`BT_GATT_ERR(BT_ATT_ERR_INVALID_ATTRIBUTE_LEN)`, both before touching any
state; otherwise copies the 3 bytes into `led_rgb`, calls `led_set_rgb` with
them, and returns `len`.  `buf` is the remote write payload (its first `len`
bytes are valid). -/
def write_led_control (buf : List Int) (len : Nat) (offset : Nat)
    (s : ServiceState) : Int × ServiceState × List ServiceEffect :=
  if offset ≠ 0 then
    (BT_GATT_ERR BT_ATT_ERR_INVALID_OFFSET, s, [])
  else if len ≠ 3 then
    (BT_GATT_ERR BT_ATT_ERR_INVALID_ATTRIBUTE_LEN, s, [])
  else
    let rgb := buf.take 3
    ((len : Int),
     { s with led_rgb := rgb },
     [ServiceEffect.ledSetRgb (rgb.getD 0 0) (rgb.getD 1 0) (rgb.getD 2 0)])

/-- buzzer_service.c `read_button_state`: a remote read returns the stored
`button_state` byte (via `bt_gatt_attr_read` over `&button_state`,
`sizeof(button_state) = 1`). -/
def read_button_state (s : ServiceState) : Int :=
  s.button_state

/-- buzzer_service.c `buzzer_service_send_button_state`: stores the new
pressed/released value into `button_state` first, then checks the
notification flag — returning `-EACCES` if notifications are disabled —
and otherwise notifies, returning `bt_gatt_notify`'s result (`notify_err`,
an environment input). -/
def buzzer_service_send_button_state (pressed : Bool) (notify_err : Int)
    (s : ServiceState) : Int × ServiceState × List ServiceEffect :=
  let s1 := { s with button_state := if pressed then 1 else 0 }
  if s1.button_state_notify_enabled = false then
    (-EACCES, s1, [])
  else
    (notify_err, s1, [ServiceEffect.notifySent s1.button_state])

/-! ## main.c: connection-status LED cadence -/

inductive TimerOp where
  /-- `k_timer_stop(&led_timer)` -/
  | stop
  /-- `k_timer_start(&led_timer, K_MSEC(delay), K_MSEC(period))` -/
  | startPeriodic (delay : Nat) (period : Nat)
  deriving DecidableEq, Repr

structure MainState where
  connection_status : Bool
  deriving DecidableEq, Repr

/-- main.c `update_connection_status`: records the new link state, stops the
blink timer, then starts it periodically with `LED_BLINK_CONNECTED_MS` when
connected and `LED_BLINK_DISCONNECTED_MS` when disconnected. -/
def update_connection_status (connected : Bool) (_s : MainState) :
    MainState × List TimerOp :=
  let s1 : MainState := { connection_status := connected }
  if connected then
    (s1, [TimerOp.stop,
          TimerOp.startPeriodic LED_BLINK_CONNECTED_MS LED_BLINK_CONNECTED_MS])
  else
    (s1, [TimerOp.stop,
          TimerOp.startPeriodic LED_BLINK_DISCONNECTED_MS LED_BLINK_DISCONNECTED_MS])

/-- The blink period chosen by `update_connection_status` as a function of
the new link state alone. -/
def blink_period (connected : Bool) : Nat :=
  if connected then LED_BLINK_CONNECTED_MS else LED_BLINK_DISCONNECTED_MS

/-- battery.c initial module state: `battery_level = 100`,
`last_update_time = 0`, with the ADC successfully initialized. -/
def battery_startup_state : BatteryState :=
  { battery_level := 100, last_update_time := 0, adc_initialized := true }

/-! ## Helper lemmas about `battery_update` -/

/-- When the rate-limit guard passes (interval elapsed, or the zero startup
sentinel) and the ADC is available, `battery_update` performs exactly one
peripheral read and stamps `last_update_time := now`. -/
theorem battery_update_samples (now : Int) (r : Except Int Int) (s : BatteryState)
    (hadc : s.adc_initialized = true)
    (hrun : ¬(now - s.last_update_time < BATTERY_UPDATE_INTERVAL_MS ∧
              s.last_update_time ≠ 0)) :
    countReads (battery_update now r s).2 = 1 ∧
    (battery_update now r s).1.last_update_time = now ∧
    (battery_update now r s).1.adc_initialized = true := by
  unfold battery_update
  rw [if_neg hrun]
  cases r with
  | error e => simp [hadc, countReads]
  | ok v => simp only [hadc]; split_ifs <;> simp_all [countReads]

/-- When the interval has not elapsed and `last_update_time` is non-zero,
`battery_update` is a no-op: state unchanged, no effects. -/
theorem battery_update_rate_limited (now : Int) (r : Except Int Int)
    (s : BatteryState)
    (h1 : now - s.last_update_time < BATTERY_UPDATE_INTERVAL_MS)
    (h2 : s.last_update_time ≠ 0) :
    battery_update now r s = (s, []) := by
  unfold battery_update
  rw [if_pos ⟨h1, h2⟩]

/-! ## Claim theorems -/

/-- C1: when the debounce window expires, the expiry handler reads the
current line level (active-low: raw 0 means pressed), compares it to the
last committed stable value, and invokes the registered callback exactly
once with the new boolean state if and only if the level differs from the
last committed stable value; on a bounce (level back to its prior value) no
callback fires and the stable state is unchanged. -/
theorem debounce_expiry_fires_iff_changed (raw_value : Int) (s : ButtonState)
    (hreg : s.user_callback_registered = true) :
    (((raw_value == 0) : Bool) ≠ s.last_button_state →
       (debounce_timer_handler raw_value s).2 =
         [ButtonEffect.callback (raw_value == 0)] ∧
       (debounce_timer_handler raw_value s).1.last_button_state = (raw_value == 0)) ∧
    (((raw_value == 0) : Bool) = s.last_button_state →
       (debounce_timer_handler raw_value s).2 = [] ∧
       (debounce_timer_handler raw_value s).1.last_button_state =
         s.last_button_state) := by
  constructor
  · intro h
    simp [debounce_timer_handler, h, hreg]
  · intro h
    simp [debounce_timer_handler, h]

theorem debounce_expiry_fires_iff_changed_witness :
    (debounce_timer_handler 0 ⟨false, true, true⟩).2 =
      [ButtonEffect.callback true] :=
  ((debounce_expiry_fires_iff_changed 0 ⟨false, true, true⟩ rfl).1 (by decide)).1

/-- C2: the millivolts-to-percent conversion is monotonically non-decreasing
over the full input range, and at each segment boundary the two adjacent
segment formulas agree: both yield 80 at mv = 4000, 50 at mv = 3700 and 20
at mv = 3400. -/
theorem battery_percent_monotone_and_continuous :
    (∀ a b : Int, a ≤ b → millivolts_to_percent a ≤ millivolts_to_percent b) ∧
    (seg_80_100 4000 = 80 ∧ seg_50_80 4000 = 80) ∧
    (seg_50_80 3700 = 50 ∧ seg_20_50 3700 = 50) ∧
    (seg_20_50 3400 = 20 ∧ seg_0_20 3400 = 20) :=
  ⟨fun _ _ hab => millivolts_to_percent_mono hab,
   ⟨by decide, by decide⟩, ⟨by decide, by decide⟩, ⟨by decide, by decide⟩⟩

theorem battery_percent_monotone_and_continuous_witness :
    millivolts_to_percent 3500 ≤ millivolts_to_percent 3900 :=
  battery_percent_monotone_and_continuous.1 3500 3900 (by decide)

/-- C3: the conversion returns 100 for every mv ≥ `BATTERY_FULL_MV` (4200),
0 for every mv ≤ `BATTERY_EMPTY_MV` (3000), 65 at mv = 3850, and 35 at
mv = 3550. -/
theorem battery_percent_anchor_values :
    (∀ mv : Int, BATTERY_FULL_MV ≤ mv → millivolts_to_percent mv = 100) ∧
    (∀ mv : Int, mv ≤ BATTERY_EMPTY_MV → millivolts_to_percent mv = 0) ∧
    millivolts_to_percent 3850 = 65 ∧ millivolts_to_percent 3550 = 35 :=
  ⟨fun _ h => mvp_high (by simpa [BATTERY_FULL_MV] using h),
   fun _ h => mvp_low (by simpa [BATTERY_EMPTY_MV] using h),
   by decide, by decide⟩

theorem battery_percent_anchor_values_witness :
    millivolts_to_percent 4500 = 100 ∧ millivolts_to_percent 2500 = 0 :=
  ⟨battery_percent_anchor_values.1 4500 (by decide),
   battery_percent_anchor_values.2.1 2500 (by decide)⟩

/-- C4: a raw-edge interrupt arriving while a debounce window is already
pending leaves the module state unchanged and performs no timer operation
(first-edge-wins, so at most one window is outstanding); an edge with no
window pending marks a window pending and starts one new timer of
`BUTTON_DEBOUNCE_MS` = 50 ms. -/
theorem raw_edge_first_edge_wins (s : ButtonState) :
    (s.debounce_in_progress = true → button_pressed_handler s = (s, [])) ∧
    (s.debounce_in_progress = false →
       button_pressed_handler s =
         ({ s with debounce_in_progress := true },
          [ButtonEffect.timerStart 50])) := by
  constructor
  · intro h
    simp [button_pressed_handler, h]
  · intro h
    simp [button_pressed_handler, h, BUTTON_DEBOUNCE_MS]

theorem raw_edge_first_edge_wins_witness :
    button_pressed_handler ⟨false, true, true⟩ = (⟨false, true, true⟩, []) :=
  (raw_edge_first_edge_wins ⟨false, true, true⟩).1 rfl

/-- C5 counterexample: the claim "two calls within the minimum interval
perform exactly one peripheral read" fails when the first call happens at
uptime 0.  Starting from the startup state (`last_update_time = 0`), a call
at `now = 0` samples but leaves `last_update_time = 0`, which is the
never-sampled sentinel; a second call at `now = 1` — well inside the
minimum interval — therefore samples again: two peripheral reads. -/
theorem battery_two_reads_within_interval :
    countReads (battery_update 0 (Except.ok 2000) battery_startup_state).2 = 1 ∧
    (1 : Int) -
        (battery_update 0 (Except.ok 2000) battery_startup_state).1.last_update_time <
      BATTERY_UPDATE_INTERVAL_MS ∧
    countReads (battery_update 1 (Except.ok 2000)
        (battery_update 0 (Except.ok 2000) battery_startup_state).1).2 = 1 := by
  decide

/-- C5 (amended): the sampling operation is rate-limited through the
`last_update_time = 0` startup sentinel: a call finding the sentinel always
samples, and provided the first call occurs at a nonzero uptime, a second
call within `BATTERY_UPDATE_INTERVAL_MS` is a no-op performing no peripheral
read — so the two calls perform exactly one read. -/
theorem battery_rate_limit_amended (now1 now2 : Int) (r1 r2 : Except Int Int)
    (s : BatteryState) (hadc : s.adc_initialized = true)
    (h0 : s.last_update_time = 0) (hnz : now1 ≠ 0)
    (hwin : now2 - now1 < BATTERY_UPDATE_INTERVAL_MS) :
    countReads (battery_update now1 r1 s).2 = 1 ∧
    battery_update now2 r2 (battery_update now1 r1 s).1 =
      ((battery_update now1 r1 s).1, []) := by
  have h1 := battery_update_samples now1 r1 s hadc (by rw [h0]; simp)
  refine ⟨h1.1, ?_⟩
  exact battery_update_rate_limited now2 r2 _ (by rw [h1.2.1]; exact hwin)
    (by rw [h1.2.1]; exact hnz)

theorem battery_rate_limit_amended_witness :
    countReads (battery_update 10 (Except.ok 2000) battery_startup_state).2 = 1 ∧
    battery_update 20 (Except.ok 2000)
        (battery_update 10 (Except.ok 2000) battery_startup_state).1 =
      ((battery_update 10 (Except.ok 2000) battery_startup_state).1, []) :=
  battery_rate_limit_amended 10 20 (Except.ok 2000) (Except.ok 2000)
    battery_startup_state rfl rfl (by decide) (by decide)

/-- C6: when a sample is taken, the newly computed percent is published to
the BLE Battery Service collaborator exactly when it differs from the
previously published one; when it equals the previous value, no publication
occurs and the stored level is unchanged. -/
theorem battery_publish_on_change (now adc_value : Int) (s : BatteryState)
    (hadc : s.adc_initialized = true)
    (hrun : ¬(now - s.last_update_time < BATTERY_UPDATE_INTERVAL_MS ∧
              s.last_update_time ≠ 0)) :
    (millivolts_to_percent (adc_to_millivolts adc_value) ≠ s.battery_level →
       (battery_update now (Except.ok adc_value) s).1.battery_level =
         millivolts_to_percent (adc_to_millivolts adc_value) ∧
       BatteryEffect.publish (millivolts_to_percent (adc_to_millivolts adc_value)) ∈
         (battery_update now (Except.ok adc_value) s).2) ∧
    (millivolts_to_percent (adc_to_millivolts adc_value) = s.battery_level →
       (battery_update now (Except.ok adc_value) s).1.battery_level =
         s.battery_level ∧
       ¬ hasPublish (battery_update now (Except.ok adc_value) s).2) := by
  unfold battery_update
  rw [if_neg hrun]
  constructor
  · intro h
    simp only [hadc]
    simp [h, hasPublish]
  · intro h
    simp only [hadc]
    simp [h, hasPublish]

theorem battery_publish_on_change_witness :
    (battery_update 10 (Except.ok 2000) battery_startup_state).1.battery_level =
      millivolts_to_percent (adc_to_millivolts 2000) :=
  ((battery_publish_on_change 10 2000 battery_startup_state rfl (by decide)).1
    (by decide)).1

/-- C7: a remote write to the LED-control characteristic with a non-zero
offset or a length other than 3 is rejected with the corresponding ATT
error and has no side effect (state and output unchanged); a 3-byte write
at offset 0 is accepted, stores the payload as the RGB value, updates the
LED output with it, and returns the accepted length. -/
theorem write_led_control_validates (buf : List Int) (len offset : Nat)
    (s : ServiceState) (hlen : buf.length = len) :
    (offset ≠ 0 →
       write_led_control buf len offset s =
         (BT_GATT_ERR BT_ATT_ERR_INVALID_OFFSET, s, [])) ∧
    (offset = 0 → len ≠ 3 →
       write_led_control buf len offset s =
         (BT_GATT_ERR BT_ATT_ERR_INVALID_ATTRIBUTE_LEN, s, [])) ∧
    (offset = 0 → len = 3 →
       write_led_control buf len offset s =
         ((3 : Int), { s with led_rgb := buf },
          [ServiceEffect.ledSetRgb (buf.getD 0 0) (buf.getD 1 0) (buf.getD 2 0)])) := by
  refine ⟨fun ho => ?_, fun ho hl => ?_, fun ho hl => ?_⟩
  · simp [write_led_control, ho]
  · simp [write_led_control, ho, hl]
  · have htake : buf.take 3 = buf := by
      rw [← hl, ← hlen]
      exact List.take_length buf
    simp [write_led_control, ho, hl, htake]

theorem write_led_control_validates_witness :
    write_led_control [1, 2] 2 0 ⟨0, [0, 0, 0], false⟩ =
      (BT_GATT_ERR BT_ATT_ERR_INVALID_ATTRIBUTE_LEN, ⟨0, [0, 0, 0], false⟩, []) :=
  ((write_led_control_validates [1, 2] 2 0 ⟨0, [0, 0, 0], false⟩ rfl).2.1
    rfl (by decide))

/-- C8: every link-state transition emits exactly the trace
`[stop, startPeriodic p p]` — the prior blink timer is cancelled before the
new periodic timer is armed, so two cadences never overlap — where the
period `p` depends solely on the new state, and the disconnected cadence
(2000 ms) is strictly faster than the connected cadence (5000 ms). -/
theorem link_transition_cancel_then_arm (new_state : Bool) (s : MainState) :
    (update_connection_status new_state s).2 =
      [TimerOp.stop,
       TimerOp.startPeriodic (blink_period new_state) (blink_period new_state)] ∧
    blink_period false < blink_period true ∧
    blink_period false = LED_BLINK_DISCONNECTED_MS ∧
    blink_period true = LED_BLINK_CONNECTED_MS := by
  cases new_state <;>
    simp [update_connection_status, blink_period,
      LED_BLINK_CONNECTED_MS, LED_BLINK_DISCONNECTED_MS]

/-- C9: when the analog read fails during a sample, the previously published
percent is left unchanged, the failure is reported, and nothing is published
(the operation completes normally, returning only the updated timestamp
state). -/
theorem battery_read_failure_keeps_level (now err : Int) (s : BatteryState)
    (hadc : s.adc_initialized = true)
    (hrun : ¬(now - s.last_update_time < BATTERY_UPDATE_INTERVAL_MS ∧
              s.last_update_time ≠ 0)) :
    (battery_update now (Except.error err) s).1.battery_level = s.battery_level ∧
    ¬ hasPublish (battery_update now (Except.error err) s).2 ∧
    BatteryEffect.reportReadFailure err ∈ (battery_update now (Except.error err) s).2 := by
  unfold battery_update
  rw [if_neg hrun]
  simp [hadc, hasPublish]

theorem battery_read_failure_keeps_level_witness :
    (battery_update 10 (Except.error (-5)) battery_startup_state).1.battery_level =
      battery_startup_state.battery_level :=
  (battery_read_failure_keeps_level 10 (-5) battery_startup_state rfl (by decide)).1

/-- C10: every call to the button-state send operation stores the new
pressed/released value into the characteristic first — so a remote read
sees the new value — and only then checks the notification flag; with
notifications disabled it returns `-EACCES` and sends nothing, but the
stored value has already been mutated. -/
theorem send_button_state_mutates_before_gate (pressed : Bool) (notify_err : Int)
    (s : ServiceState) :
    ((buzzer_service_send_button_state pressed notify_err s).2.1.button_state =
       if pressed then 1 else 0) ∧
    (read_button_state (buzzer_service_send_button_state pressed notify_err s).2.1 =
       if pressed then 1 else 0) ∧
    (s.button_state_notify_enabled = false →
       (buzzer_service_send_button_state pressed notify_err s).1 = -EACCES ∧
       (buzzer_service_send_button_state pressed notify_err s).2.2 = []) := by
  unfold buzzer_service_send_button_state read_button_state
  cases hs : s.button_state_notify_enabled <;> simp [hs]

theorem send_button_state_mutates_before_gate_witness :
    (buzzer_service_send_button_state true 0 ⟨0, [0, 0, 0], false⟩).1 = -EACCES :=
  ((send_button_state_mutates_before_gate true 0 ⟨0, [0, 0, 0], false⟩).2.2 rfl).1

end Buzzer
